import Mathlib

/-!
Verification development for the aws-sre-autopilot incident pipeline.

The definitions below are a shallow embedding of the Python sources:
  * `src/sre-brain/handler.py` — alarm handling Lambda (target resolution,
    SSM dispatch/polling, GenAI advisor with fallback, DynamoDB writes);
  * `src/dashboard/app.py` — FastAPI dashboard (approve/reject endpoints,
    background remediation task, incident statistics).

External collaborators (AWS APIs, the Gemini HTTP endpoint, the wall
clock, `json.loads` of upstream text) are modelled as explicit oracle
parameters; everything the repository's own code computes is translated
directly.  Timestamps produced by `datetime.now(timezone.utc).isoformat()`
are modelled as natural numbers ordered like the ISO strings the code
stores (lexicographic order on the ISO format agrees with time order).
-/

namespace Autopilot

/-- Python truthiness of an optional string (`None` and `""` are falsy):
the handler guards like `if asg_name:` use this. -/
def pyTruthy : Option String → Bool
  | none => false
  | some s => s ≠ ""

/-- Python `s.startswith(pre)`, computed on the character lists. -/
def pyStartswith (s pre : String) : Bool :=
  pre.data.isPrefixOf s.data

/-- Occurrence of `pat` at some position of `hay` (character lists). -/
def substrAt : List Char → List Char → Bool
  | [], pat => pat.isEmpty
  | c :: t, pat => pat.isPrefixOf (c :: t) || substrAt t pat

/-- Python `pat in s` substring test. -/
def strContains (s pat : String) : Bool :=
  substrAt s.data pat.data

/-- Python `a or b` on strings: `a` if non-empty, else `b`. -/
def pyOr (a b : String) : String :=
  if a ≠ "" then a else b

/-- Python `s[:n]` — the first `n` code points. -/
def pyTake (s : String) (n : Nat) : String :=
  ⟨s.data.take n⟩

/-- Splitting a character list on `:` (Python `s.split(":")`). -/
def splitColonList : List Char → List (List Char)
  | [] => [[]]
  | c :: t =>
      let rest := splitColonList t
      if c = ':' then [] :: rest
      else
        match rest with
        | [] => [[c]]
        | h :: r => (c :: h) :: r

/-- Python `s.split(":")`. -/
def pySplitColon (s : String) : List String :=
  (splitColonList s.data).map String.mk

-- ══════════════════════════════════════════════════════════════
-- Target Resolver  (src/sre-brain/handler.py:32-108)
-- ══════════════════════════════════════════════════════════════

/-- One CloudWatch alarm dimension `{"name": ..., "value": ...}`. -/
structure Dimension where
  name : String
  value : String
deriving DecidableEq

/-- The fields of the parsed SNS alarm payload that target resolution
reads.  `Option` marks keys that may be absent from the JSON object. -/
structure AlarmData where
  trigDimensions : List Dimension
  region : Option String
  awsAccountId : Option String
  alarmArn : Option String
deriving DecidableEq

/-- The dict comprehension `{d["name"]: d["value"] for d in dims}` keeps
the last value for a duplicated name; lookup in that dict. -/
def dimValue (dims : List Dimension) (nm : String) : Option String :=
  (dims.reverse.find? (fun d => d.name == nm)).map Dimension.value

/-- One entry of `AutoScalingGroups[0]["Instances"]`. -/
structure AsgInstance where
  instanceId : String
  lifecycleState : String
deriving DecidableEq

/-- One entry of `TargetHealthDescriptions`: the target health state and
the target id. -/
structure TargetDesc where
  state : String
  targetId : String
deriving DecidableEq

/-- Oracle for `autoscaling.describe_auto_scaling_groups`: per ASG name,
either an exception (`.error`) or the list of groups, each reduced to its
`Instances` list. -/
def AsgLookup := String → Except Unit (List (List AsgInstance))

/-- Oracle for `elbv2.describe_target_health`: per target-group ARN,
either an exception or the `TargetHealthDescriptions` list. -/
def TgHealth := String → Except Unit (List TargetDesc)

/-- Embedding of `get_unhealthy_targets` (handler.py:32-53): collect ids of targets
whose health state is not `healthy` and whose id is instance-shaped
(`i-` prefix); any exception yields the empty list. -/
def get_unhealthy_targets (tgHealth : TgHealth) (tgArn : String) : List String :=
  match tgHealth tgArn with
  | .error _ => []
  | .ok descs =>
      descs.filterMap fun d =>
        if d.state ≠ "healthy" ∧ pyStartswith d.targetId "i-" then some d.targetId else none

/-- Account-id resolution inside the TargetGroup branch of
`get_target_instances` (handler.py:88-97): `alarm_data.get("AWSAccountId")`,
else field 4 of `AlarmArn` split on `:` (an IndexError is swallowed),
and a still-falsy result means no account id. -/
def resolveAccountId (alarm : AlarmData) : Option String :=
  let a0 := alarm.awsAccountId
  let a1 :=
    if pyTruthy a0 then a0
    else
      match alarm.alarmArn with
      | some arn =>
          match (pySplitColon arn)[4]? with
          | some part => some part
          | none => a0
      | none => a0
  if pyTruthy a1 then a1 else none

/-- The target-group ARN built at handler.py:38. -/
def tgArnOf (region accountId tgSuffix : String) : String :=
  "arn:aws:elasticloadbalancing:" ++ region ++ ":" ++ accountId ++ ":" ++ tgSuffix

/-- Embedding of `get_target_instances` (handler.py:56-108), the target resolver.
The source checks, in this order: a truthy `AutoScalingGroupName`
dimension (in-service members of the first returned group; exceptions
and an empty group list give `[]`); then a truthy `TargetGroup`
dimension (unhealthy instance-shaped targets, `[]` when no account id
can be determined); then a truthy `InstanceId` dimension (that single
host); otherwise `[]`.  `envRegion` is the `AWS_REGION` default. -/
def get_target_instances (asgLookup : AsgLookup) (tgHealth : TgHealth)
    (envRegion : String) (alarm : AlarmData) : List String :=
  let dims := alarm.trigDimensions
  let asgName := dimValue dims "AutoScalingGroupName"
  if pyTruthy asgName then
    match asgLookup (asgName.getD "") with
    | .error _ => []
    | .ok [] => []
    | .ok (instances :: _) =>
        (instances.filter (fun i => i.lifecycleState == "InService")).map AsgInstance.instanceId
  else
    let tgSuffix := dimValue dims "TargetGroup"
    if pyTruthy tgSuffix then
      let region := alarm.region.getD envRegion
      match resolveAccountId alarm with
      | none => []
      | some accountId =>
          get_unhealthy_targets tgHealth (tgArnOf region accountId (tgSuffix.getD ""))
    else
      let instanceId := dimValue dims "InstanceId"
      if pyTruthy instanceId then [instanceId.getD ""] else []

-- ══════════════════════════════════════════════════════════════
-- Remote Executor  (src/sre-brain/handler.py:123-158)
-- ══════════════════════════════════════════════════════════════

/-- The fields of an SSM `get_command_invocation` response the code
reads.  `stdout`/`stderr` model the optional `StandardOutputContent` /
`StandardErrorContent` keys read through `.get`. -/
structure Invocation where
  status : String
  stdout : Option String
  stderr : Option String
deriving DecidableEq

/-- The terminal SSM invocation statuses (handler.py:148). -/
def TERMINAL_STATUSES : List String := ["Success", "Failed", "Cancelled", "TimedOut"]

/-- Oracle for the polling loop: the outcome of the `n`-th
`get_command_invocation` call — `none` when the call raises
(`InvocationDoesNotExist` or any other exception, both of which the
loop swallows and retries), `some inv` for a response. -/
def PollOracle := Nat → Option Invocation

/-- The polling loop body of `wait_for_command` (handler.py:144-157):
scan successive poll outcomes, returning the first response whose
status is terminal, giving up after `fuel` attempts. -/
def findTerminal (polls : PollOracle) : Nat → Nat → Option Invocation
  | 0, _ => none
  | fuel + 1, attempt =>
      match polls attempt with
      | some inv =>
          if TERMINAL_STATUSES.contains inv.status then some inv
          else findTerminal polls fuel (attempt + 1)
      | none => findTerminal polls fuel (attempt + 1)

/-- The `retries = 60` attempt budget (handler.py:143). -/
def MAX_POLL_ATTEMPTS : Nat := 60

/-- The `time.sleep(2)` pause between attempts (handler.py:156); wall-clock time
itself is not modelled, only the attempt budget. -/
def POLL_INTERVAL_SECONDS : Nat := 2

/-- Embedding of `wait_for_command` (handler.py:138-158): a falsy command id returns
`None` at once; otherwise poll up to `MAX_POLL_ATTEMPTS` times for a
terminal invocation. -/
def wait_for_command (commandId : Option String) (polls : PollOracle) : Option Invocation :=
  if pyTruthy commandId then findTerminal polls MAX_POLL_ATTEMPTS 0 else none

-- ══════════════════════════════════════════════════════════════
-- Remediation Advisor  (src/sre-brain/handler.py:111-232)
-- ══════════════════════════════════════════════════════════════

/-- Oracle for `s3.list_buckets`: an exception or the bucket names. -/
def BucketList := Except Unit (List String)

/-- Embedding of `get_log_bucket` (handler.py:111-120): first bucket whose name
starts with the archive prefix, with a fixed fallback name on an
exception or no match. -/
def get_log_bucket (buckets : BucketList) : String :=
  match buckets with
  | .error _ => "sre-incident-logs-archive"
  | .ok bs =>
      match bs.find? (fun b => pyStartswith b "sre-incident-logs-archive") with
      | some b => b
      | none => "sre-incident-logs-archive"

/-- A Python value decoded by `json.loads` (the shapes relevant here). -/
inductive Json where
  | str (s : String)
  | num (n : Int)
  | bool (b : Bool)
  | null
  | arr (elems : List Json)
  | obj (fields : List (String × Json))

/-- The `{"reasoning": ..., "command": ...}` dict shape the advisor
promises. -/
structure Remediation where
  reasoning : String
  command : String
deriving DecidableEq

/-- The dict literal a `Remediation` denotes. -/
def Remediation.toJson (r : Remediation) : Json :=
  Json.obj [("reasoning", Json.str r.reasoning), ("command", Json.str r.command)]

/-- Embedding of `fallback_remediation` (handler.py:209-232): the deterministic
category-keyed fallback table, keyed by substring of the issue type.
The Disk entry interpolates the archive bucket name. -/
def fallback_remediation (buckets : BucketList) (issue_type : String) : Remediation :=
  if strContains issue_type "Disk" then
    { reasoning := "Disk usage critical. Archiving garbage.log to S3 and clearing file to free space.",
      command := "export PATH=$PATH:/usr/local/bin; aws s3 cp /var/log/garbage.log s3://"
        ++ get_log_bucket buckets ++ "/garbage.log-$(date +%s) && > /var/log/garbage.log" }
  else if strContains issue_type "Nginx" then
    { reasoning := "Nginx service is down. Restarting service to restore availability.",
      command := "systemctl restart nginx" }
  else if strContains issue_type "Memory" then
    { reasoning := "Memory exhaustion detected. Terminating stress-ng process.",
      command := "pkill -f \x27stress-ng\x27 || pkill -f \x27python3\x27" }
  else
    { reasoning := "Unknown issue type. No specific remediation.",
      command := "echo \x27No remediation found\x27" }

/-- Outcome of the Gemini HTTP round trip in `ask_genai`
(handler.py:188-204), as observed by the surrounding `try`:
  * `httpError`: `urllib.error.HTTPError` was raised (logged, falls
    through to the fallback);
  * `failure`: any other exception — transport errors, a missing
    `candidates/content/parts/text` path in the response object, or
    `json.loads` failing on the cleaned generated text;
  * `parsed v`: the cleaned generated text parsed as the JSON value
    `v`, which the function returns as-is. -/
inductive UpstreamOutcome where
  | httpError (code : Nat)
  | failure
  | parsed (v : Json)

/-- Embedding of `ask_genai` (handler.py:161-206): with a missing or dummy API key
the fallback is used without any call; otherwise the upstream outcome
decides — a parsed JSON value is returned unchanged, every failure
falls through to `fallback_remediation`.  Total: no exception escapes. -/
def ask_genai (apiKey : Option String) (buckets : BucketList)
    (upstream : UpstreamOutcome) (_context issue_type : String) : Json :=
  if ¬ pyTruthy apiKey ∨ pyStartswith (apiKey.getD "") "dummy" then
    (fallback_remediation buckets issue_type).toJson
  else
    match upstream with
    | .parsed v => v
    | .httpError _ => (fallback_remediation buckets issue_type).toJson
    | .failure => (fallback_remediation buckets issue_type).toJson

/-- Whether a JSON value is a dict carrying both `reasoning` and
`command` keys. -/
def hasRemediationShape : Json → Bool
  | Json.obj fields => (fields.any (fun p => p.1 == "reasoning"))
      && (fields.any (fun p => p.1 == "command"))
  | _ => false

-- ══════════════════════════════════════════════════════════════
-- Incident Record Store  (DynamoDB table `sre-incidents`)
-- ══════════════════════════════════════════════════════════════

/-- One `{event, timestamp, detail}` timeline entry.  Timestamps are
modelled as naturals ordered like the stored ISO strings. -/
structure TimelineEntry where
  event : String
  timestamp : Nat
  detail : String
deriving DecidableEq

/-- A DynamoDB item of the incident table.  Every attribute except the
key is optional: `update_item` with a `SET` expression upserts, so an
item can exist with only the attributes some update has set. -/
structure Item where
  incident_id : String
  alarm_name : Option String
  alarm_description : Option String
  instance_id : Option String
  diagnostics : Option String
  ai_suggestion : Option String
  ai_reasoning : Option String
  status : Option String
  created_at : Option Nat
  updated_at : Option Nat
  remediation_output : Option String
  custom_command : Option String
  timeline : Option (List TimelineEntry)
deriving DecidableEq

/-- The table keyed by `incident_id`. -/
def Store := String → Option Item

/-- An item holding nothing but its key, as `update_item` creates when
the key is absent. -/
def emptyItem (id : String) : Item :=
  ⟨id, none, none, none, none, none, none, none, none, none, none, none, none⟩

/-- DynamoDB `update_item` with a `SET` expression: apply `f` to the
existing item, or to a fresh key-only item when the key is absent
(upsert semantics). -/
def updateItemF (s : Store) (id : String) (f : Item → Item) : Store :=
  fun k => if k = id then some (f ((s id).getD (emptyItem id))) else s k

-- ══════════════════════════════════════════════════════════════
-- DynamoDB writes of the brain  (src/sre-brain/handler.py:240-309)
-- ══════════════════════════════════════════════════════════════

/-- The three-entry timeline `write_incident` creates (handler.py:257-269). -/
def initialTimeline (alarmName : String) (now : Nat) : List TimelineEntry :=
  [ ⟨"created", now, "Incident created from alarm: " ++ alarmName⟩,
    ⟨"diagnostics", now, "Diagnostics executed successfully"⟩,
    ⟨"ai_analysis", now, "AI generated remediation plan"⟩ ]

/-- The item `write_incident` puts (handler.py:240-288); the `or ""`
defaults on `diagnostics`/`ai_suggestion`/`ai_reasoning` are applied by
the caller passing strings here. -/
def writeIncidentItem (incidentId alarmName alarmDesc instanceId diagnostics
    aiSuggestion aiReasoning statusVal : String) (now : Nat) : Item :=
  { incident_id := incidentId
    alarm_name := some alarmName
    alarm_description := some alarmDesc
    instance_id := some instanceId
    diagnostics := some diagnostics
    ai_suggestion := some aiSuggestion
    ai_reasoning := some aiReasoning
    status := some statusVal
    created_at := some now
    updated_at := some now
    remediation_output := some ""
    custom_command := none
    timeline := some (initialTimeline alarmName now) }

/-- Embedding of `update_incident_status` (handler.py:291-309):
`SET status, remediation_output, updated_at` on the keyed item. -/
def update_incident_status (s : Store) (incidentId statusVal output : String)
    (now : Nat) : Store :=
  updateItemF s incidentId fun it =>
    { it with status := some statusVal, remediation_output := some output,
              updated_at := some now }

-- ══════════════════════════════════════════════════════════════
-- Dashboard approval workflow  (src/dashboard/app.py:235-405)
-- ══════════════════════════════════════════════════════════════

/-- Embedding of `_append_timeline` (app.py:239-251):
`SET timeline = list_append(if_not_exists(timeline, []), [entry])` —
append one entry, treating a missing attribute as the empty list.
Note: this update touches only `timeline`, no other attribute. -/
def append_timeline (s : Store) (incidentId event : String) (now : Nat)
    (detail : String) : Store :=
  updateItemF s incidentId fun it =>
    { it with timeline := some (it.timeline.getD [] ++ [⟨event, now, detail⟩]) }

/-- The structured errors the endpoints raise (`HTTPException`):
`notFound` is the 404 "Incident not found"; `badRequest` is the 400
whose message interpolates the current status; `keyError` models a
`KeyError` on a missing item attribute escaping the endpoint. -/
inductive HttpError where
  | notFound (msg : String)
  | badRequest (currentStatus : String)
  | keyError (attr : String)
deriving DecidableEq

/-- The background dispatch scheduled by `approve_incident` via
`asyncio.create_task(_execute_remediation ...)`. -/
structure BackgroundTask where
  incident_id : String
  instance_id : String
  command : String
deriving DecidableEq

/-- Embedding of `reject_incident` (app.py:384-405): unconditionally
`SET status = rejected, updated_at = now` on the keyed item (an upsert —
there is no existence or prior-status check anywhere in the endpoint),
then append a `rejected` timeline entry.  No command is dispatched and
no error path exists.  `now` is the status-update timestamp, `tlNow`
the (separately taken) timeline timestamp. -/
def reject_incident (s : Store) (incidentId : String) (now tlNow : Nat) :
    Store × List BackgroundTask × Except HttpError String :=
  let s1 := updateItemF s incidentId fun it =>
    { it with status := some "rejected", updated_at := some now }
  let s2 := append_timeline s1 incidentId "rejected" tlNow "Operator rejected remediation"
  (s2, [], .ok "rejected")

/-- Embedding of `approve_incident` (app.py:254-296).  Returns the store after the
endpoint's foreground writes, the background tasks scheduled, and the
response or error.  Paths, in source order: 404 when the item is
absent; 400 (carrying the current status) when the status is not
`pending_approval`; otherwise the chosen command is the custom one when
truthy, else the stored `ai_suggestion` (a missing attribute read with
`[...]` is a `KeyError`); the item is marked `executing` with
`updated_at = now` (and `custom_command` persisted only when the
override was truthy), an `approved` timeline entry is appended, and the
dispatch of the chosen command runs as a background task. -/
def approve_incident (s : Store) (incidentId : String) (customCommand : Option String)
    (now tlNow : Nat) : Store × List BackgroundTask × Except HttpError String :=
  match s incidentId with
  | none => (s, [], .error (.notFound "Incident not found"))
  | some incident =>
      match incident.status with
      | none => (s, [], .error (.keyError "status"))
      | some st =>
          if st ≠ "pending_approval" then (s, [], .error (.badRequest st))
          else
            let usedCustom := pyTruthy customCommand
            let commandOpt := if usedCustom then customCommand else incident.ai_suggestion
            match commandOpt with
            | none => (s, [], .error (.keyError "ai_suggestion"))
            | some command =>
                let s1 := updateItemF s incidentId fun it =>
                  let base := { it with status := some "executing", updated_at := some now }
                  if usedCustom then { base with custom_command := some command } else base
                let detail := if usedCustom then "Custom command used"
                              else "AI-suggested command approved"
                let s2 := append_timeline s1 incidentId "approved" tlNow detail
                match incident.instance_id with
                | none => (s2, [], .error (.keyError "instance_id"))
                | some inst =>
                    (s2, [⟨incidentId, inst, command⟩], .ok "executing")

/-- Embedding of `_execute_remediation` (app.py:299-382), the background task.
`dispatch` is the outcome of `ssm.send_command` (`none` when it raises,
which the outer `except` turns into a `failed` write carrying the error
text); `polls` feeds the 60-attempt invocation poll loop (exceptions
inside the loop are swallowed).  An observed terminal invocation writes
`completed`/`failed` with the captured output and a matching timeline
entry (detail capped at 200 characters); polling out writes `timeout`
(with no output write) and a timeout timeline entry. -/
def execute_remediation (s : Store) (task : BackgroundTask)
    (dispatch : Option String) (errText : String) (polls : PollOracle)
    (now tlNow : Nat) : Store :=
  match dispatch with
  | none =>
      let s1 := updateItemF s task.incident_id fun it =>
        { it with status := some "failed", remediation_output := some errText,
                  updated_at := some now }
      append_timeline s1 task.incident_id "failed" tlNow (pyTake errText 200)
  | some _ =>
      match findTerminal polls MAX_POLL_ATTEMPTS 0 with
      | some inv =>
          let finalStatus := if inv.status = "Success" then "completed" else "failed"
          let output := pyOr (inv.stdout.getD "") (inv.stderr.getD "No output")
          let s1 := updateItemF s task.incident_id fun it =>
            { it with status := some finalStatus, remediation_output := some output,
                      updated_at := some now }
          append_timeline s1 task.incident_id finalStatus tlNow (pyTake output 200)
      | none =>
          let s1 := updateItemF s task.incident_id fun it =>
            { it with status := some "timeout", updated_at := some now }
          append_timeline s1 task.incident_id "timeout" tlNow
            "SSM command timed out after 2 minutes"

-- ══════════════════════════════════════════════════════════════
-- Incident Lifecycle Engine  (src/sre-brain/handler.py:317-446)
-- ══════════════════════════════════════════════════════════════

/-- Python dict lookup on a decoded JSON object (later duplicate keys
shadow earlier ones, as in a dict literal built left to right). -/
def jsonDictGet (fields : List (String × Json)) (key : String) : Option Json :=
  (fields.reverse.find? (fun p => p.1 == key)).map Prod.snd

/-- Python `d.get(key, dflt)` where the handler consumes the value as a
string; a present-but-non-string value is outside the modelled fragment
(`none`). -/
def strField (fields : List (String × Json)) (key dflt : String) : Option String :=
  match jsonDictGet fields key with
  | none => some dflt
  | some (Json.str s) => some s
  | some _ => none

/-- The alarm-name keyword dispatch at handler.py:352-363:
diagnostic command set and issue type per category, `none` for an
unknown alarm type (target skipped). -/
def classify (alarmName : String) : Option (List String × String) :=
  if strContains alarmName "Disk" then
    some (["df -h /", "ls -lRh /var/log/ | head -n 20"], "Disk Critical")
  else if strContains alarmName "Nginx" || strContains alarmName "Service" then
    some (["systemctl status nginx", "journalctl -u nginx -n 20"], "Nginx Down")
  else if strContains alarmName "Memory" then
    some (["free -m", "ps aux --sort=-%mem | head -n 10"], "Memory Exhaustion")
  else none

/-- One entry of the `results` list the handler returns; the source
dict keys are `instance`, `status` and (approval mode only)
`incident_id`. -/
structure ResultEntry where
  targetInstance : String
  status : String
  incident_id : Option String
deriving DecidableEq

/-- Observable effects of processing one target: incidents persisted
via `write_incident`, calls made to `ask_genai` (diagnostics text and
issue type), entries appended to `results`, and
`update_incident_status` calls (id, status, output). -/
structure StepTrace where
  written : List Item
  advisorCalls : List (String × String)
  results : List ResultEntry
  statusUpdates : List (String × String × String)
deriving DecidableEq

/-- The trace of a skipped target. -/
def emptyTrace : StepTrace := ⟨[], [], [], []⟩

/-- The environment the Lambda runs against: the resolver backends, the
SSM dispatch/poll transport, the advisor outcome, and the
`APPROVAL_MODE` flag.  `sendCommand` returns the command id from
`send_ssm_command`, `none` when the dispatch raised (handler.py:123-135
logs and returns `None`). -/
structure BrainEnv where
  asgLookup : AsgLookup
  tgHealth : TgHealth
  envRegion : String
  sendCommand : String → List String → Option String
  diagPolls : String → PollOracle
  remPolls : String → PollOracle
  advisor : String → String → Json
  approvalMode : Bool

/-- The per-target loop body of `lambda_handler` (handler.py:342-440).
An unclassifiable alarm or a failed diagnostic dispatch `continue`s
with no incident written, no advisor call, no result entry and no
retry.  Otherwise diagnostics are awaited (a missing result reads
`"Diagnostic Timeout"`), the advisor is consulted, and the mode
branches: approval mode persists a `pending_approval` incident; auto
mode persists `executing`, dispatches the remediation and records the
terminal (`completed`/`failed`) or `timeout` outcome via
`update_incident_status`.  `.error` marks exceptions the loop would
re-raise (advisor result not a dict, or a non-string field, the latter
outside the modelled fragment). -/
def processInstance (env : BrainEnv) (alarmName alarmDesc : String) (tsec now : Nat)
    (instanceId : String) : Except String StepTrace :=
  match classify alarmName with
  | none => .ok emptyTrace
  | some (diagCommands, issueType) =>
      let incidentId := toString tsec ++ "_" ++ alarmName ++ "_" ++ instanceId
      match env.sendCommand instanceId diagCommands with
      | none => .ok emptyTrace
      | some cmdId =>
          let cmdResult := wait_for_command (some cmdId) (env.diagPolls cmdId)
          let diagnostics :=
            match cmdResult with
            | some inv => inv.stdout.getD "No Output"
            | none => "Diagnostic Timeout"
          match env.advisor diagnostics issueType with
          | Json.obj fields =>
              match strField fields "command" "echo \x27Error\x27",
                    strField fields "reasoning" "No reasoning provided." with
              | some remediationCmd, some aiReasoning =>
                  if env.approvalMode then
                    .ok { written := [writeIncidentItem incidentId alarmName alarmDesc
                                        instanceId diagnostics remediationCmd aiReasoning
                                        "pending_approval" now],
                          advisorCalls := [(diagnostics, issueType)],
                          results := [⟨instanceId, "pending_approval", some incidentId⟩],
                          statusUpdates := [] }
                  else
                    let item := writeIncidentItem incidentId alarmName alarmDesc
                                  instanceId diagnostics remediationCmd aiReasoning
                                  "executing" now
                    let fixId := env.sendCommand instanceId [remediationCmd]
                    let fixResult := wait_for_command fixId (env.remPolls (fixId.getD ""))
                    match fixResult with
                    | some inv =>
                        let finalStatus := if inv.status = "Success" then "completed"
                                           else "failed"
                        let output := pyOr (inv.stdout.getD "")
                                        (pyOr (inv.stderr.getD "") "No output")
                        .ok { written := [item],
                              advisorCalls := [(diagnostics, issueType)],
                              results := [⟨instanceId, finalStatus, none⟩],
                              statusUpdates := [(incidentId, finalStatus, output)] }
                    | none =>
                        .ok { written := [item],
                              advisorCalls := [(diagnostics, issueType)],
                              results := [⟨instanceId, "timeout", none⟩],
                              statusUpdates := [(incidentId, "timeout", "Command timed out")] }
              | _, _ => .error "non-string advisor field (not modelled)"
          | _ => .error "AttributeError: get on non-dict advisor result"

/-- The body of the handler's HTTP-style response. -/
inductive HandlerBody where
  | results (rs : List ResultEntry)
  | msg (s : String)
deriving DecidableEq

/-- The handler's return value plus the observable trace of its run. -/
structure HandlerOut where
  statusCode : Nat
  body : HandlerBody
  trace : StepTrace
deriving DecidableEq

/-- The parsed SNS alarm message: the fields `lambda_handler` reads
plus the resolver payload. -/
structure ParsedEvent where
  alarmName : Option String
  alarmDescription : Option String
  newStateValue : Option String
  alarm : AlarmData
deriving DecidableEq

/-- Concatenation of per-target traces in loop order. -/
def combineTraces (ts : List StepTrace) : StepTrace :=
  ⟨(ts.map StepTrace.written).flatten, (ts.map StepTrace.advisorCalls).flatten,
   (ts.map StepTrace.results).flatten, (ts.map StepTrace.statusUpdates).flatten⟩

/-- Embedding of `lambda_handler` (handler.py:317-446).  `event = none` models a
payload whose parse raises (re-raised by the outer handler).  A
non-ALARM state returns 200 without work; an empty target resolution
returns 400 `"No targets found"`; otherwise each target is processed in
order and the collected results are returned with 200. -/
def lambda_handler (env : BrainEnv) (event : Option ParsedEvent) (tsec now : Nat) :
    Except String HandlerOut :=
  match event with
  | none => .error "malformed event: parse error re-raised"
  | some ev =>
      let alarmName := ev.alarmName.getD "Unknown"
      let alarmDesc := ev.alarmDescription.getD ""
      let newState := ev.newStateValue.getD "ALARM"
      if newState ≠ "ALARM" then
        .ok ⟨200, .msg "Ignored: not in ALARM state", emptyTrace⟩
      else
        let targets := get_target_instances env.asgLookup env.tgHealth env.envRegion ev.alarm
        if targets.isEmpty then
          .ok ⟨400, .msg "No targets found", emptyTrace⟩
        else do
          let traces ← targets.mapM (processInstance env alarmName alarmDesc tsec now)
          let tr := combineTraces traces
          .ok ⟨200, .results tr.results, tr⟩

-- ══════════════════════════════════════════════════════════════
-- Aggregate statistics  (src/dashboard/app.py:149-215)
-- ══════════════════════════════════════════════════════════════

/-- The attributes of a scanned item that `get_incident_stats` reads;
timestamps stay strings here because the endpoint parses them itself. -/
structure StatItem where
  status : Option String
  created_at : Option String
  updated_at : Option String
deriving DecidableEq

/-- Oracle for `datetime.fromisoformat(s.replace("Z", "+00:00"))`
followed by `.total_seconds()` of a difference: parse an ISO timestamp
string to epoch seconds, `none` when parsing raises. -/
def TsParse := String → Option Int

/-- Python `item.get("status", "unknown")` (app.py:160). -/
def itemStatus (it : StatItem) : String := it.status.getD "unknown"

/-- The status-count dict's lookup (app.py:158-161): the dict built by
incrementing per item maps each status to the number of items carrying
it. -/
def statusCount (items : List StatItem) (s : String) : Nat :=
  (items.map itemStatus).count s

/-- The daily-count dict (app.py:163-174): keys are the 7 day strings
`days` (computed from the wall clock, passed as an oracle); each counts
the items whose truthy `created_at` has that 10-character date prefix. -/
def dailyCount (days : List String) (items : List StatItem) (day : String) : Nat :=
  if days.contains day then
    items.countP (fun it => pyTruthy it.created_at
      && (pyTake (it.created_at.getD "") 10 == day))
  else 0

/-- Embedding of `mttr_values` (app.py:177-191): for items with status `completed`
or `failed` and truthy `created_at`/`updated_at`, parse both (a parse
exception skips the item) and keep the difference when positive. -/
def mttr_values (parseTs : TsParse) (items : List StatItem) : List Int :=
  items.filterMap fun it =>
    if (it.status = some "completed" ∨ it.status = some "failed")
        ∧ pyTruthy it.created_at ∧ pyTruthy it.updated_at then
      match parseTs (it.created_at.getD ""), parseTs (it.updated_at.getD "") with
      | some c, some u => if u - c > 0 then some (u - c) else none
      | _, _ => none
    else none

/-- Predicate for a resolved item (app.py:195). -/
def isResolved (it : StatItem) : Bool :=
  it.status == some "completed" || it.status == some "failed"
    || it.status == some "rejected"

/-- The stats payload (app.py:205-212).  `statusKeys` is the key set of
the status-count dict (the distinct statuses present); the averages are
exact rationals — the endpoint's final `round(-, 1)` is float display
formatting and is not modelled. -/
structure StatsOut where
  total : Nat
  statusKeys : List String
  status_counts : String → Nat
  daily_counts : String → Nat
  avg_mttr_seconds : ℚ
  success_rate : ℚ
  total_resolved : Nat

/-- Embedding of `get_incident_stats` (app.py:149-215) over the scanned `items`. -/
def get_incident_stats (parseTs : TsParse) (days : List String)
    (items : List StatItem) : StatsOut :=
  let mttr := mttr_values parseTs items
  let resolved := items.countP isResolved
  let completed := items.countP (fun it => it.status == some "completed")
  { total := items.length
    statusKeys := (items.map itemStatus).dedup
    status_counts := statusCount items
    daily_counts := dailyCount days items
    avg_mttr_seconds := if mttr ≠ [] then (mttr.sum : ℚ) / (mttr.length : ℚ) else 0
    success_rate := if resolved > 0 then (completed : ℚ) / (resolved : ℚ) * 100 else 0
    total_resolved := resolved }

-- ══════════════════════════════════════════════════════════════
-- Theorems
-- ══════════════════════════════════════════════════════════════

/-- Unfolding truthiness of a present value. -/
theorem pyTruthy_some (s : String) : pyTruthy (some s) = decide (s ≠ "") := rfl

-- ── C1 ───────────────────────────────────────────────────────

/-- ASG backend for the C1 counterexample: one group whose only
in-service member is `i-2`. -/
def c1AsgLookup : AsgLookup := fun _ => .ok [[⟨"i-2", "InService"⟩]]

/-- Target-group backend for the C1 counterexample (unused branch). -/
def c1TgHealth : TgHealth := fun _ => .ok []

/-- An alarm payload carrying both an explicit `InstanceId` dimension
and an `AutoScalingGroupName` dimension. -/
def c1Alarm : AlarmData :=
  { trigDimensions := [⟨"InstanceId", "i-1"⟩, ⟨"AutoScalingGroupName", "demo-asg"⟩],
    region := none, awsAccountId := none, alarmArn := none }

/-- C1, counterexample: the claim says an explicit `InstanceId`
dimension wins regardless of other dimensions, but on a payload that
carries both `InstanceId = i-1` and an ASG dimension the resolver takes
the ASG branch and returns the group member `i-2`, not `i-1`: the code
checks the group dimension first, the host dimension last. -/
theorem C1_counterexample :
    get_target_instances c1AsgLookup c1TgHealth "ap-south-1" c1Alarm = ["i-2"] ∧
    get_target_instances c1AsgLookup c1TgHealth "ap-south-1" c1Alarm ≠ ["i-1"] := by
  constructor <;> decide

/-- C1, amended: resolution priority is group dimension first, then
routing/target-group dimension, then explicit host dimension, first
truthy match winning; the group branch returns the in-service members
of the first group and degrades to `[]` on a backend error or an empty
group list; the routing branch returns the non-healthy targets with
instance-shaped ids and degrades to `[]` on a backend error or an
unresolvable account id; the host branch returns that single host only
when neither a group nor a routing dimension is truthy. -/
theorem C1_resolution_priority (asgL : AsgLookup) (tgH : TgHealth) (reg : String)
    (alarm : AlarmData) :
    (∀ nm, dimValue alarm.trigDimensions "AutoScalingGroupName" = some nm → nm ≠ "" →
      (∀ e, asgL nm = .error e → get_target_instances asgL tgH reg alarm = []) ∧
      (asgL nm = .ok [] → get_target_instances asgL tgH reg alarm = []) ∧
      (∀ g gs, asgL nm = .ok (g :: gs) →
        get_target_instances asgL tgH reg alarm =
          (g.filter (fun i => i.lifecycleState == "InService")).map AsgInstance.instanceId)) ∧
    (pyTruthy (dimValue alarm.trigDimensions "AutoScalingGroupName") = false →
     ∀ tg, dimValue alarm.trigDimensions "TargetGroup" = some tg → tg ≠ "" →
      (resolveAccountId alarm = none → get_target_instances asgL tgH reg alarm = []) ∧
      (∀ acct, resolveAccountId alarm = some acct →
        (∀ e, tgH (tgArnOf (alarm.region.getD reg) acct tg) = .error e →
          get_target_instances asgL tgH reg alarm = []) ∧
        (∀ descs, tgH (tgArnOf (alarm.region.getD reg) acct tg) = .ok descs →
          get_target_instances asgL tgH reg alarm =
            descs.filterMap (fun d =>
              if d.state ≠ "healthy" ∧ pyStartswith d.targetId "i-"
              then some d.targetId else none)))) ∧
    (pyTruthy (dimValue alarm.trigDimensions "AutoScalingGroupName") = false →
     pyTruthy (dimValue alarm.trigDimensions "TargetGroup") = false →
     ∀ iid, dimValue alarm.trigDimensions "InstanceId" = some iid → iid ≠ "" →
       get_target_instances asgL tgH reg alarm = [iid]) ∧
    (pyTruthy (dimValue alarm.trigDimensions "AutoScalingGroupName") = false →
     pyTruthy (dimValue alarm.trigDimensions "TargetGroup") = false →
     pyTruthy (dimValue alarm.trigDimensions "InstanceId") = false →
       get_target_instances asgL tgH reg alarm = []) := by
  refine ⟨?_, ?_, ?_, ?_⟩
  · intro nm hnm hne
    refine ⟨?_, ?_, ?_⟩
    · intro e he
      simp [get_target_instances, hnm, pyTruthy_some, hne, he]
    · intro he
      simp [get_target_instances, hnm, pyTruthy_some, hne, he]
    · intro g gs he
      simp [get_target_instances, hnm, pyTruthy_some, hne, he]
  · intro hasg tg htg hne
    refine ⟨?_, ?_⟩
    · intro hacct
      simp [get_target_instances, hasg, htg, pyTruthy_some, hne, hacct, get_unhealthy_targets]
    · intro acct hacct
      refine ⟨?_, ?_⟩
      · intro e he
        simp [get_target_instances, hasg, htg, pyTruthy_some, hne, hacct,
          get_unhealthy_targets, he]
      · intro descs he
        simp [get_target_instances, hasg, htg, pyTruthy_some, hne, hacct,
          get_unhealthy_targets, he]
  · intro hasg htg iid hiid hne
    simp [get_target_instances, hasg, htg, hiid, pyTruthy_some, hne]
  · intro hasg htg hiid
    simp [get_target_instances, hasg, htg, hiid]

/-- ASG backend for the C1 witness. -/
def c1wAsgLookup : AsgLookup :=
  fun _ => .ok [[⟨"i-2", "InService"⟩, ⟨"i-3", "Terminating"⟩]]

/-- Routing backend for the C1 witness: one unhealthy instance target,
one unhealthy non-instance target, one healthy target. -/
def c1wTgHealth : TgHealth :=
  fun _ => .ok [⟨"unhealthy", "i-7"⟩, ⟨"unhealthy", "10.0.0.9"⟩, ⟨"healthy", "i-8"⟩]

/-- Alarm for the routing-branch witness case. -/
def c1wTgAlarm : AlarmData :=
  { trigDimensions := [⟨"TargetGroup", "targetgroup/tg/abc"⟩],
    region := some "us-east-1", awsAccountId := some "123456789012", alarmArn := none }

/-- Alarm for the host-branch witness case. -/
def c1wInstAlarm : AlarmData :=
  { trigDimensions := [⟨"InstanceId", "i-1"⟩],
    region := none, awsAccountId := none, alarmArn := none }

/-- C1 witness: the amended priority theorem applied at concrete
backends exercising, in turn, the group branch, the routing branch and
the host branch. -/
theorem C1_resolution_priority_witness :
    get_target_instances c1wAsgLookup c1wTgHealth "r" c1Alarm = ["i-2"] ∧
    get_target_instances c1wAsgLookup c1wTgHealth "r" c1wTgAlarm = ["i-7"] ∧
    get_target_instances c1wAsgLookup c1wTgHealth "r" c1wInstAlarm = ["i-1"] := by
  refine ⟨?_, ?_, ?_⟩
  · have h := (C1_resolution_priority c1wAsgLookup c1wTgHealth "r" c1Alarm).1
      "demo-asg" (by decide) (by decide)
    have h2 := h.2.2 [⟨"i-2", "InService"⟩, ⟨"i-3", "Terminating"⟩] [] rfl
    exact h2.trans (by decide)
  · have h := ((C1_resolution_priority c1wAsgLookup c1wTgHealth "r" c1wTgAlarm).2.1
      (by decide) "targetgroup/tg/abc" (by decide) (by decide)).2
      "123456789012" (by decide)
    have h2 := h.2 [⟨"unhealthy", "i-7"⟩, ⟨"unhealthy", "10.0.0.9"⟩, ⟨"healthy", "i-8"⟩] rfl
    exact h2.trans (by decide)
  · exact (C1_resolution_priority c1wAsgLookup c1wTgHealth "r" c1wInstAlarm).2.2.1
      (by decide) (by decide) "i-1" (by decide) (by decide)

-- ── C2 ───────────────────────────────────────────────────────

/-- C2, counterexample: on an empty store, rejecting the unknown id
`ghost` does not fail with a `NotFoundError` — the endpoint has no
existence check at all; it answers `rejected` and upserts a fresh
record for the unknown id. -/
theorem C2_counterexample :
    (reject_incident (fun _ => none) "ghost" 5 6).2.2 = Except.ok "rejected" ∧
    (∀ e, (reject_incident (fun _ => none) "ghost" 5 6).2.2 ≠ Except.error e) ∧
    (reject_incident (fun _ => none) "ghost" 5 6).1 "ghost" =
      some { emptyItem "ghost" with
              status := some "rejected", updated_at := some 5,
              timeline := some [⟨"rejected", 6, "Operator rejected remediation"⟩] } := by
  refine ⟨rfl, ?_, by decide⟩
  intro e h
  cases h

/-- C2, amended: `Reject` never fails (in particular never with
`NotFoundError`): for every id, known or not, it answers `rejected`,
upserts the record to status `rejected` regardless of any prior status,
stamps `updated_at`, appends the rejection timeline entry, never
schedules a command dispatch, and touches no other record. -/
theorem C2_reject_unconditional (s : Store) (id : String) (now tlNow : Nat) :
    (reject_incident s id now tlNow).2.1 = [] ∧
    (reject_incident s id now tlNow).2.2 = .ok "rejected" ∧
    ((reject_incident s id now tlNow).1 id =
      some { ((s id).getD (emptyItem id)) with
              status := some "rejected", updated_at := some now,
              timeline := some ((((s id).getD (emptyItem id)).timeline).getD [] ++
                [⟨"rejected", tlNow, "Operator rejected remediation"⟩]) }) ∧
    (∀ k, k ≠ id → (reject_incident s id now tlNow).1 k = s k) := by
  refine ⟨rfl, rfl, ?_, ?_⟩
  · simp [reject_incident, append_timeline, updateItemF]
  · intro k hk
    simp [reject_incident, append_timeline, updateItemF, hk]

/-- C2 witness: the amended theorem applied to a store holding one
`pending_approval` incident, rejecting precisely it. -/
theorem C2_reject_unconditional_witness :
    (reject_incident
        (fun k => if k = "inc-1"
                  then some { emptyItem "inc-1" with
                              status := some "pending_approval",
                              timeline := some [] }
                  else none)
        "inc-1" 7 8).2.1 = [] ∧
    ((reject_incident
        (fun k => if k = "inc-1"
                  then some { emptyItem "inc-1" with
                              status := some "pending_approval",
                              timeline := some [] }
                  else none)
        "inc-1" 7 8).1 "other") = none := by
  constructor
  · exact (C2_reject_unconditional _ "inc-1" 7 8).1
  · exact ((C2_reject_unconditional _ "inc-1" 7 8).2.2.2 "other" (by decide)).trans (by decide)

-- ── C3 ───────────────────────────────────────────────────────

/-- Store for the C3 counterexample: one record last updated at 5. -/
def c3Store : Store := fun k =>
  if k = "inc-1" then some { emptyItem "inc-1" with updated_at := some 5, timeline := some [] }
  else none

/-- C3, counterexample: a timeline append performed at time 10 on a
record with `updated_at = 5` mutates the stored record (the timeline
grows) yet leaves `updated_at` at 5 — the `_append_timeline` update
expression sets only the `timeline` attribute, so this mutation does
not advance `updated_at`. -/
theorem C3_counterexample :
    ((append_timeline c3Store "inc-1" "note" 10 "detail") "inc-1").map Item.timeline =
      some (some [⟨"note", 10, "detail"⟩]) ∧
    ((append_timeline c3Store "inc-1" "note" 10 "detail") "inc-1").map Item.timeline ≠
      (c3Store "inc-1").map Item.timeline ∧
    ((append_timeline c3Store "inc-1" "note" 10 "detail") "inc-1").map Item.updated_at =
      some (some 5) ∧
    (5 : Nat) < 10 := by
  refine ⟨by decide, by decide, by decide, by decide⟩

/-- C3, amended: the status/output-writing mutations
(`update_incident_status`, the approve transition, reject, and every
write path of the background `_execute_remediation` task — its terminal
write, its poll-timeout write and its dispatch-exception write) stamp
`updated_at` with the operation's timestamp — hence keep it
non-decreasing whenever the clock is — while `_append_timeline`
mutates only the timeline and leaves `updated_at` exactly unchanged
(so it does not advance it). -/
theorem C3_updated_at_discipline (s : Store) (id : String) (now tlNow : Nat) :
    (∀ st out, ((update_incident_status s id st out now) id).bind Item.updated_at
        = some now) ∧
    (((reject_incident s id now tlNow).1 id).bind Item.updated_at = some now) ∧
    (∀ it custom sugg inst, s id = some it → it.status = some "pending_approval" →
       it.ai_suggestion = some sugg → it.instance_id = some inst →
       ((approve_incident s id custom now tlNow).1 id).bind Item.updated_at = some now) ∧
    (∀ (task : BackgroundTask) (dispatch : Option String) (errText : String)
        (polls : PollOracle),
       ((execute_remediation s task dispatch errText polls now tlNow)
           task.incident_id).bind Item.updated_at = some now) ∧
    (∀ ev dt, ((append_timeline s id ev tlNow dt) id).bind Item.updated_at
        = ((s id).getD (emptyItem id)).updated_at) ∧
    (∀ old st out, ((s id).getD (emptyItem id)).updated_at = some old → old ≤ now →
       ∀ u, ((update_incident_status s id st out now) id).bind Item.updated_at = some u →
         old ≤ u) := by
  refine ⟨?_, ?_, ?_, ?_, ?_, ?_⟩
  · intro st out
    simp [update_incident_status, updateItemF]
  · simp [reject_incident, append_timeline, updateItemF]
  · intro it custom sugg inst hit hst hsug hinst
    cases custom with
    | none =>
        simp [approve_incident, append_timeline, updateItemF, pyTruthy, hit, hst, hsug, hinst]
    | some c =>
        rcases Classical.em (c = "") with hc | hc
        · simp [approve_incident, append_timeline, updateItemF, pyTruthy, hit, hst, hc,
            hsug, hinst]
        · simp [approve_incident, append_timeline, updateItemF, pyTruthy, hit, hst, hc,
            hsug, hinst]
  · intro task dispatch errText polls
    cases dispatch with
    | none => simp [execute_remediation, append_timeline, updateItemF]
    | some cid =>
        cases hfind : findTerminal polls MAX_POLL_ATTEMPTS 0 with
        | none => simp [execute_remediation, hfind, append_timeline, updateItemF]
        | some inv => simp [execute_remediation, hfind, append_timeline, updateItemF]
  · intro ev dt
    simp [append_timeline, updateItemF]
  · intro old st out hold hle u hu
    simp [update_incident_status, updateItemF] at hu
    omega

/-- C3 witness: the amended discipline applied to a concrete one-record
store, at a clock value past the stored `updated_at`, including the
background task's poll-timeout write. -/
theorem C3_updated_at_discipline_witness :
    ((update_incident_status
        (fun k => if k = "inc-1"
                  then some { emptyItem "inc-1" with
                              status := some "pending_approval",
                              ai_suggestion := some "systemctl restart nginx",
                              instance_id := some "i-1", updated_at := some 5 }
                  else none)
        "inc-1" "completed" "ok" 9) "inc-1").bind Item.updated_at = some 9 ∧
    ((approve_incident
        (fun k => if k = "inc-1"
                  then some { emptyItem "inc-1" with
                              status := some "pending_approval",
                              ai_suggestion := some "systemctl restart nginx",
                              instance_id := some "i-1", updated_at := some 5 }
                  else none)
        "inc-1" none 9 9).1 "inc-1").bind Item.updated_at = some 9 ∧
    ((execute_remediation
        (fun k => if k = "inc-1"
                  then some { emptyItem "inc-1" with
                              status := some "pending_approval",
                              ai_suggestion := some "systemctl restart nginx",
                              instance_id := some "i-1", updated_at := some 5 }
                  else none)
        ⟨"inc-1", "i-1", "systemctl restart nginx"⟩ (some "cid-1") ""
        (fun _ => none) 9 9) "inc-1").bind Item.updated_at = some 9 := by
  refine ⟨?_, ?_, ?_⟩
  · exact (C3_updated_at_discipline _ "inc-1" 9 9).1 "completed" "ok"
  · exact (C3_updated_at_discipline _ "inc-1" 9 9).2.2.1
      _ none "systemctl restart nginx" "i-1" rfl rfl rfl rfl
  · exact (C3_updated_at_discipline _ "inc-1" 9 9).2.2.2.1
      ⟨"inc-1", "i-1", "systemctl restart nginx"⟩ (some "cid-1") "" (fun _ => none)

-- ── C4 ───────────────────────────────────────────────────────

/-- C4, confirmed: `Approve` fails with the 404 `NotFoundError` when
the id is unknown, and with the 400 `InvalidStateError` carrying the
current status when the status is not `pending_approval`; in both
failure cases the returned store is the input store unchanged and no
background dispatch is scheduled. -/
theorem C4_approve_failure_modes (s : Store) (id : String) (custom : Option String)
    (now tlNow : Nat) :
    (s id = none →
      approve_incident s id custom now tlNow
        = (s, [], .error (.notFound "Incident not found"))) ∧
    (∀ it st, s id = some it → it.status = some st → st ≠ "pending_approval" →
      approve_incident s id custom now tlNow = (s, [], .error (.badRequest st))) := by
  constructor
  · intro h
    simp [approve_incident, h]
  · intro it st hit hst hne
    simp [approve_incident, hit, hst, hne]

/-- C4 witness: approving an unknown id 404s, and approving an
already-executing incident 400s with the current status, leaving the
store untouched in both cases. -/
theorem C4_approve_failure_modes_witness :
    approve_incident (fun _ => none) "ghost" none 3 4
      = ((fun _ => none), [], .error (.notFound "Incident not found")) ∧
    approve_incident
        (fun k => if k = "inc-1"
                  then some { emptyItem "inc-1" with status := some "executing" }
                  else none)
        "inc-1" (some "reboot") 3 4
      = ((fun k => if k = "inc-1"
                   then some { emptyItem "inc-1" with status := some "executing" }
                   else none), [], .error (.badRequest "executing")) := by
  constructor
  · exact (C4_approve_failure_modes (fun _ => none) "ghost" none 3 4).1 rfl
  · exact (C4_approve_failure_modes _ "inc-1" (some "reboot") 3 4).2
      { emptyItem "inc-1" with status := some "executing" } "executing"
      (by decide) rfl (by decide)

-- ── C5 ───────────────────────────────────────────────────────

/-- C5, confirmed: on a `pending_approval` incident, `Approve` answers
`executing` immediately, marks the record `executing` (persisting
`custom_command` exactly when a truthy override was supplied), appends
the matching `approved` timeline entry, and schedules exactly one
background dispatch of the override when given (else the stored
suggestion).  The background task, run separately from the returning
endpoint, writes the terminal status through the store once the
executor reports completion: `completed` when the invocation status is
`Success`, `failed` for any other reported terminal status and for a
dispatch that raises, together with the captured remediation output. -/
theorem C5_approve_executes (s : Store) (id : String) (custom : Option String)
    (it : Item) (sugg inst : String) (now tlNow : Nat)
    (hit : s id = some it) (hst : it.status = some "pending_approval")
    (hsug : it.ai_suggestion = some sugg) (hinst : it.instance_id = some inst) :
    (approve_incident s id custom now tlNow).2.2 = .ok "executing" ∧
    (approve_incident s id custom now tlNow).2.1
      = [⟨id, inst, if pyTruthy custom then custom.getD "" else sugg⟩] ∧
    ((approve_incident s id custom now tlNow).1 id =
      some { it with
              status := some "executing", updated_at := some now,
              custom_command := (if pyTruthy custom then custom else it.custom_command),
              timeline := some (it.timeline.getD [] ++
                [⟨"approved", tlNow,
                  if pyTruthy custom then "Custom command used"
                  else "AI-suggested command approved"⟩]) }) ∧
    (∀ (task : BackgroundTask) (cid : String) (polls : PollOracle) (bnow btlNow : Nat)
        (inv : Invocation),
      findTerminal polls MAX_POLL_ATTEMPTS 0 = some inv →
      ((execute_remediation (approve_incident s id custom now tlNow).1 task
          (some cid) "" polls bnow btlNow) task.incident_id).map Item.status
        = some (some (if inv.status = "Success" then "completed" else "failed")) ∧
      ((execute_remediation (approve_incident s id custom now tlNow).1 task
          (some cid) "" polls bnow btlNow) task.incident_id).map Item.remediation_output
        = some (some (pyOr (inv.stdout.getD "") (inv.stderr.getD "No output")))) ∧
    (∀ (task : BackgroundTask) (errText : String) (polls : PollOracle) (bnow btlNow : Nat),
      ((execute_remediation (approve_incident s id custom now tlNow).1 task
          none errText polls bnow btlNow) task.incident_id).map Item.status
        = some (some "failed") ∧
      ((execute_remediation (approve_incident s id custom now tlNow).1 task
          none errText polls bnow btlNow) task.incident_id).map Item.remediation_output
        = some (some errText)) := by
  have hbg1 : ∀ (s2 : Store) (task : BackgroundTask) (cid : String) (polls : PollOracle)
      (bnow btlNow : Nat) (inv : Invocation),
      findTerminal polls MAX_POLL_ATTEMPTS 0 = some inv →
      ((execute_remediation s2 task (some cid) "" polls bnow btlNow)
          task.incident_id).map Item.status
        = some (some (if inv.status = "Success" then "completed" else "failed")) ∧
      ((execute_remediation s2 task (some cid) "" polls bnow btlNow)
          task.incident_id).map Item.remediation_output
        = some (some (pyOr (inv.stdout.getD "") (inv.stderr.getD "No output"))) := by
    intro s2 task cid polls bnow btlNow inv hfind
    constructor <;> simp [execute_remediation, hfind, append_timeline, updateItemF]
  have hbg2 : ∀ (s2 : Store) (task : BackgroundTask) (errText : String) (polls : PollOracle)
      (bnow btlNow : Nat),
      ((execute_remediation s2 task none errText polls bnow btlNow)
          task.incident_id).map Item.status = some (some "failed") ∧
      ((execute_remediation s2 task none errText polls bnow btlNow)
          task.incident_id).map Item.remediation_output = some (some errText) := by
    intro s2 task errText polls bnow btlNow
    constructor <;> simp [execute_remediation, append_timeline, updateItemF]
  refine ⟨?_, ?_, ?_,
    fun task cid polls bnow btlNow inv hfind => hbg1 _ task cid polls bnow btlNow inv hfind,
    fun task errText polls bnow btlNow => hbg2 _ task errText polls bnow btlNow⟩
  all_goals cases custom with
  | none =>
      simp [approve_incident, pyTruthy, hit, hst, hsug, hinst, append_timeline, updateItemF]
  | some c =>
      rcases Classical.em (c = "") with hc | hc
      · subst hc
        simp [approve_incident, pyTruthy, hit, hst, hsug, hinst, append_timeline, updateItemF]
      · simp [approve_incident, pyTruthy, hc, hit, hst, hsug, hinst, append_timeline,
          updateItemF]

/-- Store for the C5/C10 witnesses: one pending incident with a stored
suggestion. -/
def pendingStore : Store := fun k =>
  if k = "inc-1"
  then some { emptyItem "inc-1" with
              status := some "pending_approval",
              ai_suggestion := some "systemctl restart nginx",
              instance_id := some "i-1", timeline := some [] }
  else none

/-- Poll oracle whose first outcome is a successful terminal
invocation. -/
def successPolls : PollOracle := fun _ => some ⟨"Success", some "done", none⟩

/-- C5 witness: approving the pending incident with a custom override
schedules that override and answers `executing`; the background task,
fed a `Success` invocation, records `completed` with the output. -/
theorem C5_approve_executes_witness :
    (approve_incident pendingStore "inc-1" (some "reboot") 7 8).2.2 = .ok "executing" ∧
    (approve_incident pendingStore "inc-1" (some "reboot") 7 8).2.1
      = [⟨"inc-1", "i-1", "reboot"⟩] ∧
    ((execute_remediation (approve_incident pendingStore "inc-1" (some "reboot") 7 8).1
        ⟨"inc-1", "i-1", "reboot"⟩ (some "cid-1") "" successPolls 9 10) "inc-1").map
        Item.status = some (some "completed") := by
  have h := C5_approve_executes pendingStore "inc-1" (some "reboot")
    { emptyItem "inc-1" with
      status := some "pending_approval",
      ai_suggestion := some "systemctl restart nginx",
      instance_id := some "i-1", timeline := some [] }
    "systemctl restart nginx" "i-1" 7 8 (by decide) rfl rfl rfl
  refine ⟨h.1, by simpa using h.2.1, ?_⟩
  have h4 := (h.2.2.2.1 ⟨"inc-1", "i-1", "reboot"⟩ "cid-1" successPolls 9 10
    ⟨"Success", some "done", none⟩ (by decide)).1
  simpa using h4

-- ── C6 ───────────────────────────────────────────────────────

/-- C6, confirmed: an ALARM event resolving to exactly one target whose
alarm classifies, but whose diagnostic dispatch yields no command id,
makes `lambda_handler` return 200 with an empty results list and an
empty trace — zero incidents persisted, zero advisor calls, zero status
updates — and no exception (`Except.ok`), the target being skipped
without retry. -/
theorem C6_dispatch_failure_skips (env : BrainEnv) (ev : ParsedEvent) (tsec now : Nat)
    (iid : String) (dc : List String) (issueType : String)
    (hstate : ev.newStateValue.getD "ALARM" = "ALARM")
    (hres : get_target_instances env.asgLookup env.tgHealth env.envRegion ev.alarm = [iid])
    (hcls : classify (ev.alarmName.getD "Unknown") = some (dc, issueType))
    (hdisp : env.sendCommand iid dc = none) :
    lambda_handler env (some ev) tsec now = .ok ⟨200, .results [], emptyTrace⟩ := by
  simp only [lambda_handler, hstate, hres]
  simp [processInstance, hcls, hdisp, List.mapM.loop, combineTraces, emptyTrace]
  rfl

/-- Environment for the C6 witness: diagnostic dispatch always fails. -/
def c6Env : BrainEnv :=
  { asgLookup := fun _ => .error ()
    tgHealth := fun _ => .error ()
    envRegion := "ap-south-1"
    sendCommand := fun _ _ => none
    diagPolls := fun _ _ => none
    remPolls := fun _ _ => none
    advisor := fun _ _ => Json.null
    approvalMode := true }

/-- Event for the C6 witness: a Memory alarm on one explicit instance. -/
def c6Event : ParsedEvent :=
  { alarmName := some "Memory-Alarm"
    alarmDescription := some "memory high"
    newStateValue := some "ALARM"
    alarm := { trigDimensions := [⟨"InstanceId", "i-1"⟩],
               region := none, awsAccountId := none, alarmArn := none } }

/-- C6 witness: the skip theorem applied at the concrete failing-
dispatch environment. -/
theorem C6_dispatch_failure_skips_witness :
    lambda_handler c6Env (some c6Event) 100 101 = .ok ⟨200, .results [], emptyTrace⟩ :=
  C6_dispatch_failure_skips c6Env c6Event 100 101 "i-1"
    ["free -m", "ps aux --sort=-%mem | head -n 10"] "Memory Exhaustion"
    rfl (by decide) (by decide) rfl

-- ── C7 ───────────────────────────────────────────────────────

/-- C7, counterexample: with a live (non-dummy) key and an upstream
response whose generated text parses as the JSON array `[]` — a
malformed suggestion, since the contract demands an object with
`reasoning` and `command` — `ask_genai` returns that array unchanged:
not the category fallback, and not a `{reasoning, command}` value. -/
theorem C7_counterexample :
    ask_genai (some "AIzaTest") (.ok []) (.parsed (Json.arr [])) "diag text"
        "Memory Exhaustion" = Json.arr [] ∧
    hasRemediationShape (Json.arr []) = false ∧
    Json.arr [] ≠
      (fallback_remediation (.ok []) "Memory Exhaustion").toJson := by
  refine ⟨rfl, rfl, ?_⟩
  intro h
  exact Json.noConfusion h

/-- C7, amended: `Suggest` is total and never raises; whenever the
upstream is unavailable in the sense that no generated text is parsed —
missing or dummy credentials, an HTTP-level error, a transport error or
a response whose structure or text fails extraction/JSON parsing — the
result is the deterministic category-keyed fallback, which always
carries `reasoning` and `command`, never depends on the diagnostic
text, is the fixed process-termination command for the Memory category,
and the safe no-op echo command for an unrecognized category.  However,
upstream text that parses as any JSON value is returned as-is, even
when it is not a `{reasoning, command}` object. -/
theorem C7_advisor_fallback (apiKey : Option String) (buckets : BucketList)
    (upstream : UpstreamOutcome) (ctx ctx2 issue : String) :
    (¬ pyTruthy apiKey ∨ pyStartswith (apiKey.getD "") "dummy" →
       ask_genai apiKey buckets upstream ctx issue
         = (fallback_remediation buckets issue).toJson) ∧
    (∀ code, ask_genai apiKey buckets (.httpError code) ctx issue
         = (fallback_remediation buckets issue).toJson) ∧
    (ask_genai apiKey buckets .failure ctx issue
       = (fallback_remediation buckets issue).toJson) ∧
    (∀ v, pyTruthy apiKey → ¬ pyStartswith (apiKey.getD "") "dummy" →
       ask_genai apiKey buckets (.parsed v) ctx issue = v) ∧
    (ask_genai apiKey buckets upstream ctx issue
       = ask_genai apiKey buckets upstream ctx2 issue) ∧
    (hasRemediationShape (fallback_remediation buckets issue).toJson = true) ∧
    (strContains issue "Disk" = false → strContains issue "Nginx" = false →
     strContains issue "Memory" = true →
       (fallback_remediation buckets issue).command
         = "pkill -f \x27stress-ng\x27 || pkill -f \x27python3\x27") ∧
    (strContains issue "Disk" = false → strContains issue "Nginx" = false →
     strContains issue "Memory" = false →
       (fallback_remediation buckets issue).command
         = "echo \x27No remediation found\x27") := by
  refine ⟨?_, ?_, ?_, ?_, ?_, ?_, ?_, ?_⟩
  · intro h
    rcases h with h | h
    · simp at h
      cases upstream <;> simp [ask_genai, h]
    · cases upstream <;> simp [ask_genai, h]
  · intro code
    rcases Classical.em (¬ pyTruthy apiKey ∨ pyStartswith (apiKey.getD "") "dummy")
      with h | h
    · rcases h with h | h
      · simp at h
        simp [ask_genai, h]
      · simp [ask_genai, h]
    · push_neg at h
      simp [ask_genai, h.1, h.2]
  · rcases Classical.em (¬ pyTruthy apiKey ∨ pyStartswith (apiKey.getD "") "dummy")
      with h | h
    · rcases h with h | h
      · simp at h
        simp [ask_genai, h]
      · simp [ask_genai, h]
    · push_neg at h
      simp [ask_genai, h.1, h.2]
  · intro v h1 h2
    simp [ask_genai, h1, h2]
  · rfl
  · simp [hasRemediationShape, Remediation.toJson]
  · intro h1 h2 h3
    simp [fallback_remediation, h1, h2, h3]
  · intro h1 h2 h3
    simp [fallback_remediation, h1, h2, h3]

/-- C7 witness: the fallback theorem applied with a dummy key (Memory
category, fixed pkill command) and an unknown category (echo no-op). -/
theorem C7_advisor_fallback_witness :
    ask_genai (some "dummy-key") (.ok []) .failure "any diagnostics" "Memory Exhaustion"
      = (fallback_remediation (.ok []) "Memory Exhaustion").toJson ∧
    (fallback_remediation (.ok []) "Memory Exhaustion").command
      = "pkill -f \x27stress-ng\x27 || pkill -f \x27python3\x27" ∧
    (fallback_remediation (.ok []) "Totally Unknown").command
      = "echo \x27No remediation found\x27" := by
  refine ⟨?_, ?_, ?_⟩
  · exact (C7_advisor_fallback (some "dummy-key") (.ok []) .failure
      "any diagnostics" "other" "Memory Exhaustion").1 (Or.inr (by decide))
  · exact (C7_advisor_fallback (some "dummy-key") (.ok []) .failure
      "any diagnostics" "other" "Memory Exhaustion").2.2.2.2.2.2.1
      (by decide) (by decide) (by decide)
  · exact (C7_advisor_fallback (some "dummy-key") (.ok []) .failure
      "any diagnostics" "other" "Totally Unknown").2.2.2.2.2.2.2
      (by decide) (by decide) (by decide)

-- ── C8 ───────────────────────────────────────────────────────

/-- The poll scan only inspects the poll outcomes inside its attempt
window. -/
theorem findTerminal_congr (polls polls' : PollOracle) :
    ∀ fuel a, (∀ i, a ≤ i → i < a + fuel → polls i = polls' i) →
      findTerminal polls fuel a = findTerminal polls' fuel a := by
  intro fuel
  induction fuel with
  | zero => intro a _; rfl
  | succ n ih =>
      intro a h
      have h0 : polls a = polls' a := h a (Nat.le_refl a) (by omega)
      cases hp : polls' a with
      | none =>
          simp only [findTerminal, h0, hp]
          exact ih (a + 1) (fun i h1 h2 => h i (by omega) (by omega))
      | some inv =>
          simp only [findTerminal, h0, hp]
          by_cases ht : TERMINAL_STATUSES.contains inv.status = true
          · rw [if_pos ht, if_pos ht]
          · rw [if_neg ht, if_neg ht]
            exact ih (a + 1) (fun i h1 h2 => h i (by omega) (by omega))

/-- A value returned by the poll scan has a terminal status. -/
theorem findTerminal_terminal (polls : PollOracle) :
    ∀ fuel a inv, findTerminal polls fuel a = some inv →
      TERMINAL_STATUSES.contains inv.status = true := by
  intro fuel
  induction fuel with
  | zero => intro a inv h; simp [findTerminal] at h
  | succ n ih =>
      intro a inv h
      cases hp : polls a with
      | none =>
          simp only [findTerminal, hp] at h
          exact ih (a + 1) inv h
      | some inv2 =>
          simp only [findTerminal, hp] at h
          by_cases ht : TERMINAL_STATUSES.contains inv2.status = true
          · rw [if_pos ht] at h
            cases h
            exact ht
          · rw [if_neg ht] at h
            exact ih (a + 1) inv h

/-- If no poll in the window is terminal, the scan yields nothing. -/
theorem findTerminal_of_no_terminal (polls : PollOracle) :
    ∀ fuel a, (∀ i, a ≤ i → i < a + fuel → ∀ inv, polls i = some inv →
        TERMINAL_STATUSES.contains inv.status = false) →
      findTerminal polls fuel a = none := by
  intro fuel
  induction fuel with
  | zero => intro a _; rfl
  | succ n ih =>
      intro a h
      cases hp : polls a with
      | none =>
          simp only [findTerminal, hp]
          exact ih (a + 1) (fun i h1 h2 => h i (by omega) (by omega))
      | some inv =>
          have hnt := h a (Nat.le_refl a) (by omega) inv hp
          simp only [findTerminal, hp]
          rw [if_neg (fun hc => Bool.false_ne_true (hnt ▸ hc))]
          exact ih (a + 1) (fun i h1 h2 => h i (by omega) (by omega))

/-- The scan returns the first terminal poll outcome in its window. -/
theorem findTerminal_first (polls : PollOracle) :
    ∀ fuel a j inv, a ≤ j → j < a + fuel →
      polls j = some inv → TERMINAL_STATUSES.contains inv.status = true →
      (∀ i, a ≤ i → i < j → ∀ inv2, polls i = some inv2 →
          TERMINAL_STATUSES.contains inv2.status = false) →
      findTerminal polls fuel a = some inv := by
  intro fuel
  induction fuel with
  | zero => intro a j inv h1 h2 _ _ _; omega
  | succ n ih =>
      intro a j inv h1 h2 hj ht hprev
      rcases Nat.eq_or_lt_of_le h1 with heq | hlt
      · rw [← heq] at hj
        simp only [findTerminal, hj]
        rw [if_pos ht]
      · cases hp : polls a with
        | none =>
            simp only [findTerminal, hp]
            exact ih (a + 1) j inv (by omega) (by omega) hj ht
              (fun i hi1 hi2 => hprev i (by omega) hi2)
        | some inv2 =>
            have hnt := hprev a (Nat.le_refl a) hlt inv2 hp
            simp only [findTerminal, hp]
            rw [if_neg (fun hc => Bool.false_ne_true (hnt ▸ hc))]
            exact ih (a + 1) j inv (by omega) (by omega) hj ht
              (fun i hi1 hi2 => hprev i (by omega) hi2)

/-- C8, confirmed: completion polling is bounded and total — the cap is
the fixed 60 attempts at the fixed 2-second interval; the result of
`wait_for_command` depends only on the first 60 poll outcomes; a
returned result always carries a terminal invocation status and is the
first terminal outcome observed; when no terminal outcome occurs inside
the budget the result is `None`; a falsy (absent or empty) command id
returns `None` for every poll oracle, i.e. without consulting it; and
in the auto-execute path a `None` wait result is recorded on the
incident as the distinct status `timeout` (output "Command timed out"),
never as `failed`. -/
theorem C8_bounded_polling :
    MAX_POLL_ATTEMPTS = 60 ∧ POLL_INTERVAL_SECONDS = 2 ∧
    (∀ polls, wait_for_command none polls = none) ∧
    (∀ polls, wait_for_command (some "") polls = none) ∧
    (∀ cid polls polls', (∀ i, i < MAX_POLL_ATTEMPTS → polls i = polls' i) →
        wait_for_command cid polls = wait_for_command cid polls') ∧
    (∀ cid polls inv, wait_for_command cid polls = some inv →
        TERMINAL_STATUSES.contains inv.status = true) ∧
    (∀ cid polls, (∀ i, i < MAX_POLL_ATTEMPTS → ∀ inv, polls i = some inv →
          TERMINAL_STATUSES.contains inv.status = false) →
        wait_for_command cid polls = none) ∧
    (∀ cid polls j inv, j < MAX_POLL_ATTEMPTS →
        polls j = some inv → TERMINAL_STATUSES.contains inv.status = true →
        (∀ i, i < j → ∀ inv2, polls i = some inv2 →
            TERMINAL_STATUSES.contains inv2.status = false) →
        pyTruthy cid = true →
        wait_for_command cid polls = some inv) ∧
    (∀ (env : BrainEnv) (alarmName alarmDesc : String) (tsec now : Nat)
        (iid : String) (dc : List String) (issue cid diag : String)
        (fields : List (String × Json)) (remCmd rsn fixCid : String),
        env.approvalMode = false →
        classify alarmName = some (dc, issue) →
        env.sendCommand iid dc = some cid →
        (match wait_for_command (some cid) (env.diagPolls cid) with
         | some inv => inv.stdout.getD "No Output"
         | none => "Diagnostic Timeout") = diag →
        env.advisor diag issue = Json.obj fields →
        strField fields "command" "echo \x27Error\x27" = some remCmd →
        strField fields "reasoning" "No reasoning provided." = some rsn →
        env.sendCommand iid [remCmd] = some fixCid →
        wait_for_command (some fixCid) (env.remPolls fixCid) = none →
        processInstance env alarmName alarmDesc tsec now iid =
          .ok ⟨[writeIncidentItem (toString tsec ++ "_" ++ alarmName ++ "_" ++ iid)
                  alarmName alarmDesc iid diag remCmd rsn "executing" now],
               [(diag, issue)],
               [⟨iid, "timeout", none⟩],
               [(toString tsec ++ "_" ++ alarmName ++ "_" ++ iid, "timeout",
                 "Command timed out")]⟩) := by
  refine ⟨rfl, rfl, ?_, ?_, ?_, ?_, ?_, ?_, ?_⟩
  · intro polls; rfl
  · intro polls; rfl
  · intro cid polls polls' h
    cases cid with
    | none => rfl
    | some c =>
        by_cases hc : c = ""
        · subst hc; rfl
        · simp only [wait_for_command, pyTruthy]
          rw [if_pos (by simp [hc]), if_pos (by simp [hc])]
          exact findTerminal_congr polls polls' MAX_POLL_ATTEMPTS 0
            (fun i h1 h2 => h i (by omega))
  · intro cid polls inv h
    cases cid with
    | none => simp [wait_for_command, pyTruthy] at h
    | some c =>
        by_cases hc : c = ""
        · subst hc; simp [wait_for_command, pyTruthy] at h
        · simp only [wait_for_command, pyTruthy] at h
          rw [if_pos (by simp [hc])] at h
          exact findTerminal_terminal polls MAX_POLL_ATTEMPTS 0 inv h
  · intro cid polls h
    cases cid with
    | none => rfl
    | some c =>
        by_cases hc : c = ""
        · subst hc; rfl
        · simp only [wait_for_command, pyTruthy]
          rw [if_pos (by simp [hc])]
          exact findTerminal_of_no_terminal polls MAX_POLL_ATTEMPTS 0
            (fun i h1 h2 inv hp => h i (by omega) inv hp)
  · intro cid polls j inv hj hp ht hprev htr
    simp only [wait_for_command, htr, if_pos rfl]
    exact findTerminal_first polls MAX_POLL_ATTEMPTS 0 j inv (Nat.zero_le j)
      (by omega) hp ht (fun i _ hi2 inv2 hp2 => hprev i hi2 inv2 hp2)
  · intro env alarmName alarmDesc tsec now iid dc issue cid diag fields remCmd rsn
      fixCid hmode hcls hdisp hdiag hadv hcmd hrsn hfix hwait
    simp only [processInstance, hcls, hdisp, hdiag, hadv, hcmd, hrsn, hmode, hfix]
    simp only [Option.getD_some] at hwait ⊢
    rw [hwait]
    simp

/-- Poll oracle for the C8 witness: the first terminal outcome appears
at attempt 3. -/
def c8Polls : PollOracle := fun n => if n = 3 then some ⟨"Failed", none, none⟩ else none

/-- Auto-mode environment for the C8 witness: diagnostics succeed at
once, the advisor answers a fixed dict, and remediation polling never
sees a terminal status. -/
def c8Env : BrainEnv :=
  { asgLookup := fun _ => .error ()
    tgHealth := fun _ => .error ()
    envRegion := "r"
    sendCommand := fun _ cmds =>
      if cmds = ["free -m", "ps aux --sort=-%mem | head -n 10"] then some "diag-cid"
      else some "fix-cid"
    diagPolls := fun _ _ => some ⟨"Success", some "diag out", none⟩
    remPolls := fun _ _ => none
    advisor := fun _ _ =>
      Json.obj [("reasoning", Json.str "kill it"), ("command", Json.str "pkill -f x")]
    approvalMode := false }

/-- C8 witness: the bounded-polling theorem applied at concrete oracles
— a terminal `Failed` outcome at attempt 3 is returned, a nil handle
polls nothing, and an auto-mode run whose remediation polls never
terminate records `timeout`. -/
theorem C8_bounded_polling_witness :
    wait_for_command (some "cid") c8Polls = some ⟨"Failed", none, none⟩ ∧
    wait_for_command none c8Polls = none ∧
    processInstance c8Env "Memory-A" "desc" 1 2 "i-1" =
      .ok ⟨[writeIncidentItem (toString 1 ++ "_" ++ "Memory-A" ++ "_" ++ "i-1")
              "Memory-A" "desc" "i-1" "diag out" "pkill -f x" "kill it" "executing" 2],
           [("diag out", "Memory Exhaustion")],
           [⟨"i-1", "timeout", none⟩],
           [(toString 1 ++ "_" ++ "Memory-A" ++ "_" ++ "i-1", "timeout",
             "Command timed out")]⟩ := by
  refine ⟨?_, ?_, ?_⟩
  · exact C8_bounded_polling.2.2.2.2.2.2.2.1 (some "cid") c8Polls 3
      ⟨"Failed", none, none⟩ (by decide) (by decide) (by decide)
      (by
        intro i hi inv2 hp
        have hnone : c8Polls i = none := by
          interval_cases i <;> rfl
        rw [hnone] at hp
        cases hp)
      (by decide)
  · exact C8_bounded_polling.2.2.1 c8Polls
  · exact C8_bounded_polling.2.2.2.2.2.2.2.2 c8Env "Memory-A" "desc" 1 2 "i-1"
      ["free -m", "ps aux --sort=-%mem | head -n 10"] "Memory Exhaustion" "diag-cid"
      "diag out" [("reasoning", Json.str "kill it"), ("command", Json.str "pkill -f x")]
      "pkill -f x" "kill it" "fix-cid"
      rfl (by decide) (by decide) (by decide) rfl rfl rfl (by decide) (by decide)

-- ── C9 ───────────────────────────────────────────────────────

/-- C9, confirmed: over any scanned store of `N` items, the per-status
counts (the count dict evaluated over its key set, the distinct
statuses present) sum to `N`; the success ratio is computed only over
the resolved items — zero resolved gives 0, otherwise completed divided
by resolved (as a percentage), and appending a non-resolved item
changes nothing; the mean resolution time is computed only over
completed/failed items with truthy, parseable timestamps — appending
any other item changes nothing — and equals the arithmetic mean of the
collected positive resolution times (0 when none). -/
theorem C9_aggregate_stats (parseTs : TsParse) (days : List String) (items : List StatItem) :
    ((get_incident_stats parseTs days items).statusKeys.map
        (get_incident_stats parseTs days items).status_counts).sum = items.length ∧
    (get_incident_stats parseTs days items).total = items.length ∧
    (get_incident_stats parseTs days items).total_resolved = items.countP isResolved ∧
    (items.countP isResolved = 0 →
      (get_incident_stats parseTs days items).success_rate = 0) ∧
    (0 < items.countP isResolved →
      (get_incident_stats parseTs days items).success_rate
        = (items.countP (fun it => it.status == some "completed") : ℚ)
            / (items.countP isResolved : ℚ) * 100) ∧
    (∀ x, isResolved x = false →
      (get_incident_stats parseTs days (items ++ [x])).success_rate
        = (get_incident_stats parseTs days items).success_rate) ∧
    (∀ x, ¬ ((x.status = some "completed" ∨ x.status = some "failed")
             ∧ pyTruthy x.created_at = true ∧ pyTruthy x.updated_at = true
             ∧ (parseTs (x.created_at.getD "")).isSome = true
             ∧ (parseTs (x.updated_at.getD "")).isSome = true) →
      (get_incident_stats parseTs days (items ++ [x])).avg_mttr_seconds
        = (get_incident_stats parseTs days items).avg_mttr_seconds) ∧
    (mttr_values parseTs items = [] →
      (get_incident_stats parseTs days items).avg_mttr_seconds = 0) ∧
    (mttr_values parseTs items ≠ [] →
      (get_incident_stats parseTs days items).avg_mttr_seconds
        = ((mttr_values parseTs items).sum : ℚ) / ((mttr_values parseTs items).length : ℚ)) := by
  refine ⟨?_, rfl, rfl, ?_, ?_, ?_, ?_, ?_, ?_⟩
  · simpa [get_incident_stats, statusCount] using
      List.sum_map_count_dedup_eq_length (items.map itemStatus)
  · intro h
    simp [get_incident_stats, h]
  · intro h
    simp only [get_incident_stats]
    rw [if_pos h]
  · intro x hx
    have hcomp : (x.status == some "completed") = false := by
      simp only [isResolved, Bool.or_eq_false_iff] at hx
      exact hx.1.1
    have hres : (items ++ [x]).countP isResolved = items.countP isResolved := by
      simp [List.countP_append, hx]
    have hcm : (items ++ [x]).countP (fun it => it.status == some "completed")
        = items.countP (fun it => it.status == some "completed") := by
      simp [List.countP_append, hcomp]
    simp only [get_incident_stats, hres, hcm]
  · intro x hx
    have hfx : mttr_values parseTs (items ++ [x]) = mttr_values parseTs items := by
      unfold mttr_values
      rw [List.filterMap_append]
      rcases Classical.em ((x.status = some "completed" ∨ x.status = some "failed")
          ∧ pyTruthy x.created_at = true ∧ pyTruthy x.updated_at = true) with hc | hc
      · cases hcr : parseTs (x.created_at.getD "") with
        | none => simp [hcr, hc]
        | some c =>
            cases hup : parseTs (x.updated_at.getD "") with
            | none => simp [hcr, hup, hc]
            | some u =>
                exact absurd ⟨hc.1, hc.2.1, hc.2.2, by simp [hcr], by simp [hup]⟩ hx
      · simp [hc]
    simp only [get_incident_stats, hfx]
  · intro h
    simp [get_incident_stats, h]
  · intro h
    simp only [get_incident_stats]
    rw [if_pos h]

/-- Timestamp-parse oracle for the C9 witness. -/
def c9Parse : TsParse := fun s =>
  if s = "2025-01-01T00:00:10" then some 10
  else if s = "2025-01-01T00:00:40" then some 40
  else none

/-- Items for the C9 witness: one completed incident resolved in 30
seconds and one still pending. -/
def c9Items : List StatItem :=
  [ ⟨some "completed", some "2025-01-01T00:00:10", some "2025-01-01T00:00:40"⟩,
    ⟨some "pending_approval", some "2025-01-01T00:00:10", none⟩ ]

/-- C9 witness: the aggregate theorem applied to the two concrete
items — counts sum to 2, the one resolved incident gives a 100%
success rate, and the mean resolution time is 30 seconds. -/
theorem C9_aggregate_stats_witness :
    ((get_incident_stats c9Parse [] c9Items).statusKeys.map
        (get_incident_stats c9Parse [] c9Items).status_counts).sum = 2 ∧
    (get_incident_stats c9Parse [] c9Items).success_rate = 100 ∧
    (get_incident_stats c9Parse [] c9Items).avg_mttr_seconds = 30 := by
  have h := C9_aggregate_stats c9Parse [] c9Items
  refine ⟨h.1, ?_, ?_⟩
  · have h5 := h.2.2.2.2.1 (by decide)
    have hcompleted : c9Items.countP (fun it => it.status == some "completed") = 1 := by decide
    have hresolved : c9Items.countP isResolved = 1 := by decide
    rw [h5, hcompleted, hresolved]
    norm_num
  · have h9 := h.2.2.2.2.2.2.2.2 (by decide)
    have hmv : mttr_values c9Parse c9Items = [30] := by decide
    rw [h9, hmv]
    norm_num

-- ── C10 ──────────────────────────────────────────────────────

/-- C10, confirmed: at the Approve interface an empty-string
`custom_command` behaves exactly like an absent one — the whole
endpoint result coincides with the no-override call; in particular, on
a pending incident it schedules the stored AI suggestion (never the
empty override), leaves `custom_command` unchanged on the record, and
records the `approved` timeline detail as an AI-suggested-command
approval. -/
theorem C10_empty_custom_command (s : Store) (id : String) (now tlNow : Nat) :
    approve_incident s id (some "") now tlNow = approve_incident s id none now tlNow ∧
    (∀ it sugg inst, s id = some it → it.status = some "pending_approval" →
       it.ai_suggestion = some sugg → it.instance_id = some inst →
       (approve_incident s id (some "") now tlNow).2.1 = [⟨id, inst, sugg⟩] ∧
       ((approve_incident s id (some "") now tlNow).1 id).map Item.custom_command
         = some it.custom_command ∧
       ((approve_incident s id (some "") now tlNow).1 id).map Item.timeline
         = some (some (it.timeline.getD [] ++
             [⟨"approved", tlNow, "AI-suggested command approved"⟩]))) := by
  constructor
  · simp [approve_incident, pyTruthy]
  · intro it sugg inst hit hst hsug hinst
    refine ⟨?_, ?_, ?_⟩ <;>
      simp [approve_incident, pyTruthy, hit, hst, hsug, hinst, append_timeline, updateItemF]

/-- C10 witness: the empty-override theorem applied at the pending
store — the stored nginx-restart suggestion is dispatched and no
custom command is persisted. -/
theorem C10_empty_custom_command_witness :
    (approve_incident pendingStore "inc-1" (some "") 7 8).2.1
      = [⟨"inc-1", "i-1", "systemctl restart nginx"⟩] ∧
    ((approve_incident pendingStore "inc-1" (some "") 7 8).1 "inc-1").map Item.custom_command
      = some none := by
  have h := (C10_empty_custom_command pendingStore "inc-1" 7 8).2
    { emptyItem "inc-1" with
      status := some "pending_approval",
      ai_suggestion := some "systemctl restart nginx",
      instance_id := some "i-1", timeline := some [] }
    "systemctl restart nginx" "i-1" (by decide) rfl rfl rfl
  exact ⟨h.1, h.2.1⟩

end Autopilot
